import Mathlib

/-!
Verification of the bundle-manager webhook server (`src/web/index.ts`,
`src/web/graphql.ts`, and the variant server in `src/unnamed/part_003`
backed by the full GraphQL client in `src/unnamed/part_000`).

The embedding models:
* the pure result-shape logic of the `ShopifyGraphQL` client methods
  (`getBundleConfig`, `getInventoryItemId`), as functions of the fetched
  response;
* the stateful reconciliation pipeline (`processLineItem`,
  `syncBundleInventory`) as explicit state passing over the external
  inventory store (`Levels`), together with a trace of the inventory
  calls issued (`Action`), with the external world's behaviour
  (config lookups, key resolution, call success) supplied by an `Env`;
* an interleaving semantics for two concurrently processed sale events,
  where each `await` on a shared-state inventory call is a yield point.
-/

namespace BundleManager

/-- One component entry of a bundle configuration
(`BundleProduct` in `src/web/types.ts` / `src/unnamed/part_002`). -/
structure BundleProduct where
  productId : String
  quantity : Int
  title : Option String := none
deriving Repr, DecidableEq

/-- A bundle configuration parsed from the `custom.bundle_config`
product metafield (`BundleConfig` in `src/web/types.ts`). -/
structure BundleConfig where
  isBundle : Bool
  products : List BundleProduct
deriving Repr, DecidableEq

/-- A webhook order line item (`ShopifyLineItem` in `src/web/types.ts`);
only the fields the pipeline reads are modelled. -/
structure ShopifyLineItem where
  id : Nat
  product_id : Nat
  title : String := ""
  quantity : Int
deriving Repr, DecidableEq

/-- A webhook order (`ShopifyOrder` in `src/web/types.ts`);
only the fields the pipeline reads are modelled. -/
structure ShopifyOrder where
  id : Nat
  name : String := ""
  line_items : List ShopifyLineItem
deriving Repr, DecidableEq

/-! ### The `ShopifyGraphQL` client, result-shape logic

`getBundleConfig` (graphql.ts lines 123-139) runs the `GET_BUNDLE_CONFIG`
query inside a `try`; the fetch may throw (transport failure / non-ok
HTTP status), the product or its metafield may be absent, or the
metafield value may be present and `JSON.parse` may succeed or throw.
`MetafieldFetch` enumerates those outcomes of the awaited query. -/
inductive MetafieldFetch where
  | fetchError
  | noMetafield
  | metafieldValue (parsed : Option BundleConfig)
deriving Repr, DecidableEq

/-- `ShopifyGraphQL.getBundleConfig` (graphql.ts lines 123-139): returns
`null` when `result.data?.product?.metafield` is absent; otherwise
`JSON.parse`s the value; any thrown error (fetch failure or parse
failure) is caught and also yields `null`. -/
def ShopifyGraphQL.getBundleConfig : MetafieldFetch → Option BundleConfig
  | .fetchError => none
  | .noMetafield => none
  | .metafieldValue none => none
  | .metafieldValue (some cfg) => some cfg

/-- One node of `product.variants.edges` in the `GET_INVENTORY_ITEM`
response: the variant's `inventoryItem.id`, when present.
The JS access path is `node.inventoryItem?.id`. -/
structure VariantNode where
  inventoryItemId : Option String
deriving Repr, DecidableEq

/-- The product part of a `GET_INVENTORY_ITEM` response:
its list of variants (the query itself asks for `variants(first: 1)`;
the model keeps the whole list to state that only the head is used). -/
structure ProductVariants where
  variants : List VariantNode
deriving Repr, DecidableEq

/-- Outcome of the awaited `GET_INVENTORY_ITEM` query: the query may
throw, the product may be absent (`result.data?.product` nullish), or
present with its variants. -/
inductive InventoryItemQuery where
  | queryError
  | productMissing
  | productFound (p : ProductVariants)
deriving Repr, DecidableEq

/-- `ShopifyGraphQL.getInventoryItemId` (graphql.ts lines 144-154):
`result.data?.product?.variants?.edges?.[0]?.node` then
`variant?.inventoryItem?.id || null`; all errors are caught and yield
`null`.  The JS `|| null` maps a falsy id (empty string) to `null`. -/
def ShopifyGraphQL.getInventoryItemId : InventoryItemQuery → Option String
  | .queryError => none
  | .productMissing => none
  | .productFound p =>
    match p.variants with
    | [] => none
    | v :: _ =>
      match v.inventoryItemId with
      | none => none
      | some iid => if iid = "" then none else some iid

end BundleManager

namespace BundleManager

/-- The external inventory store: available quantity per inventory item
id (at the single configured location `SHOPIFY_LOCATION_ID`). -/
abbrev Levels := String → Int

/-- Overwrite one item's level. -/
def setLevel (σ : Levels) (iid : String) (v : Int) : Levels :=
  fun j => if j = iid then v else σ j

/-- Behaviour of the external world during one processing run:
which product resolves to which bundle config (`getBundleConfig`),
which product resolves to which inventory item id
(`getInventoryItemId`), and which inventory calls succeed. -/
structure Env where
  bundleConfigOf : String → Option BundleConfig
  inventoryItemIdOf : String → Option String
  adjustOk : String → Bool
  readOk : String → Bool
  setOk : String → Bool

/-- One inventory-service call issued by the pipeline, as recorded in
the trace: variant-key lookups, delta adjustments, level reads, and
absolute sets. -/
inductive Action where
  | keyLookup (productId : String) (result : Option String)
  | adjust (inventoryItemId : String) (delta : Int) (ok : Bool)
  | levelRead (inventoryItemId : String) (result : Option Int)
  | levelSet (inventoryItemId : String) (value : Int) (ok : Bool)
deriving Repr, DecidableEq

/-- Is this trace entry a delta adjustment (`adjustInventory`)? -/
def Action.isAdjust : Action → Bool
  | .adjust _ _ _ => true
  | _ => false

/-- Is this trace entry an absolute set (`setInventory`)? -/
def Action.isLevelSet : Action → Bool
  | .levelSet _ _ _ => true
  | _ => false

/-- `ShopifyGraphQL.getInventoryLevel` (`src/unnamed/part_000` lines
171-184) against the store: `some` of the current available level when
the query succeeds and the level is present, else `null`. -/
def ShopifyGraphQL.getInventoryLevel (env : Env) (σ : Levels) (iid : String) : Option Int :=
  if env.readOk iid then some (σ iid) else none

/-- Body of the component loop of `processLineItem`
(index.ts lines 140-171): look up the component's inventory item id
(`continue` when absent), compute
`delta = -1 * (bundleProduct.quantity * lineItem.quantity)`, and issue
`adjustInventory`; a failed adjustment (caught error or `userErrors`)
leaves the store unchanged, and never aborts the loop. -/
def adjustComponent (env : Env) (orderQty : Int) (st : Levels × List Action)
    (bp : BundleProduct) : Levels × List Action :=
  match env.inventoryItemIdOf bp.productId with
  | none => (st.1, st.2 ++ [.keyLookup bp.productId none])
  | some iid =>
    let delta := -1 * (bp.quantity * orderQty)
    if env.adjustOk iid then
      (setLevel st.1 iid (st.1 iid + delta),
       st.2 ++ [.keyLookup bp.productId (some iid), .adjust iid delta true])
    else
      (st.1, st.2 ++ [.keyLookup bp.productId (some iid), .adjust iid delta false])

/-- Body of the component loop of `syncBundleInventory`
(index.ts lines 197-208): resolve the component's key (`continue` when
absent), read its level (`continue` when `null`), else push
`Math.floor(currentLevel / component.quantity)` onto
`availablePerComponent`.  The accumulator is (trace, collected
availabilities). -/
def syncComponent (env : Env) (σ : Levels) (st : List Action × List Int)
    (c : BundleProduct) : List Action × List Int :=
  match env.inventoryItemIdOf c.productId with
  | none => (st.1 ++ [.keyLookup c.productId none], st.2)
  | some iid =>
    match ShopifyGraphQL.getInventoryLevel env σ iid with
    | none => (st.1 ++ [.keyLookup c.productId (some iid), .levelRead iid none], st.2)
    | some lvl =>
      (st.1 ++ [.keyLookup c.productId (some iid), .levelRead iid (some lvl)],
       st.2 ++ [Int.fdiv lvl c.quantity])

/-- `syncBundleInventory` (index.ts lines 184-225): resolve the
bundle's own inventory item id (return when absent); collect
`availablePerComponent` over the components; return when that list is
empty; else issue one absolute set of the bundle's level to
`Math.min(...availablePerComponent)`.  A failed set leaves the store
unchanged.  Returns the new store and the trace of issued calls. -/
def syncBundleInventory (env : Env) (σ : Levels) (bundleProductId : String)
    (cfg : BundleConfig) : Levels × List Action :=
  match env.inventoryItemIdOf bundleProductId with
  | none => (σ, [.keyLookup bundleProductId none])
  | some bundleItemId =>
    let collected := cfg.products.foldl (syncComponent env σ)
      ([.keyLookup bundleProductId (some bundleItemId)], [])
    match collected.2 with
    | [] => (σ, collected.1)
    | a :: rest =>
      let bundleInventory := rest.foldl min a
      if env.setOk bundleItemId then
        (setLevel σ bundleItemId bundleInventory,
         collected.1 ++ [.levelSet bundleItemId bundleInventory true])
      else
        (σ, collected.1 ++ [.levelSet bundleItemId bundleInventory false])

/-- The product GID built by `processLineItem` (index.ts line 111). -/
def lineItemProductGid (lineItem : ShopifyLineItem) : String :=
  "gid://shopify/Product/" ++ toString lineItem.product_id

/-- `processLineItem` (index.ts lines 105-179): resolve the bundle
config (return on `null`); return when `!isBundle` or the component
list is empty; else run the component adjustment loop and then,
unconditionally, `syncBundleInventory`.  Exceptions from the client
calls are already caught inside the client (which returns
`null`/`false`), and the per-component `try` keeps any component
failure from aborting its siblings, so the model is total. -/
def processLineItem (env : Env) (σ : Levels) (lineItem : ShopifyLineItem) :
    Levels × List Action :=
  let productId := lineItemProductGid lineItem
  match env.bundleConfigOf productId with
  | none => (σ, [])
  | some bundleConfig =>
    if !bundleConfig.isBundle || bundleConfig.products.isEmpty then (σ, [])
    else
      let adjusted := bundleConfig.products.foldl (adjustComponent env lineItem.quantity) (σ, [])
      let synced := syncBundleInventory env adjusted.1 productId bundleConfig
      (synced.1, adjusted.2 ++ synced.2)

/-- The webhook handler body for one order
(`app.post('/webhooks/orders/create')`, `src/unnamed/part_003` lines
71-92): `processLineItem` over each line item in order. -/
def processOrder (env : Env) (σ : Levels) (order : ShopifyOrder) :
    Levels × List Action :=
  order.line_items.foldl
    (fun st li =>
      let r := processLineItem env st.1 li
      (r.1, st.2 ++ r.2))
    (σ, [])

end BundleManager

namespace BundleManager

/-- The effect of one component's iteration of the `syncBundleInventory`
loop on `availablePerComponent`: `some (floor(level / quantity))` when
key resolution and the level read both succeed, `none` (skipped
component) otherwise.  Mirrors the two `continue` statements at
index.ts lines 199 and 202. -/
def componentAvail (env : Env) (σ : Levels) (c : BundleProduct) : Option Int :=
  (env.inventoryItemIdOf c.productId).bind fun iid =>
    (ShopifyGraphQL.getInventoryLevel env σ iid).map fun lvl => Int.fdiv lvl c.quantity

/-- The delta-adjustment calls issued by the component loop of
`processLineItem` for a given component list: one `adjustInventory`
call per component whose inventory item id resolves, with
`delta = -1 * (quantity * orderQty)` and the outcome given by the
environment.  Note it does not depend on the inventory store. -/
def adjustActions (env : Env) (orderQty : Int) : List BundleProduct → List Action
  | [] => []
  | bp :: rest =>
    (match env.inventoryItemIdOf bp.productId with
     | none => []
     | some iid => [Action.adjust iid (-1 * (bp.quantity * orderQty)) (env.adjustOk iid)]) ++
    adjustActions env orderQty rest

/-! ### Interleaving semantics for concurrent events

Each incoming webhook is an independent async task; every awaited
inventory call is a yield point.  For a fixed all-successful
environment, one sale event's shared-state operations are, in program
order: the per-component delta adjustments (index.ts line 159), then
the per-component level reads (line 201), then the absolute set of the
bundle's level to the minimum of the collected per-component
availabilities (line 218).  `Step` is that operation alphabet; the
read accumulates `floor(level / quantity)` into the task-local
`availablePerComponent` list. -/
inductive Step where
  | adjustStep (iid : String) (delta : Int)
  | readStep (iid : String) (quantity : Int)
  | setMinStep (iid : String)
deriving Repr, DecidableEq

/-- A task mid-execution: remaining steps and the task-local
`availablePerComponent` accumulator. -/
structure TaskState where
  steps : List Step
  acc : List Int
deriving Repr

/-- Execute one step of a task against the shared store (a no-op when
the task is finished). -/
def stepTask (σ : Levels) (t : TaskState) : Levels × TaskState :=
  match t.steps with
  | [] => (σ, t)
  | .adjustStep iid delta :: rest => (setLevel σ iid (σ iid + delta), ⟨rest, t.acc⟩)
  | .readStep iid q :: rest => (σ, ⟨rest, t.acc ++ [Int.fdiv (σ iid) q]⟩)
  | .setMinStep iid :: rest =>
    match t.acc with
    | [] => (σ, ⟨rest, t.acc⟩)
    | a :: more => (setLevel σ iid (more.foldl min a), ⟨rest, t.acc⟩)

/-- Run a task to completion without interleaving. -/
def runTask : Levels → List Step → List Int → Levels
  | σ, [], _ => σ
  | σ, .adjustStep iid delta :: rest, acc => runTask (setLevel σ iid (σ iid + delta)) rest acc
  | σ, .readStep iid q :: rest, acc => runTask σ rest (acc ++ [Int.fdiv (σ iid) q])
  | σ, .setMinStep iid :: rest, acc =>
    match acc with
    | [] => runTask σ rest acc
    | a :: more => runTask (setLevel σ iid (more.foldl min a)) rest acc

/-- Run two concurrent tasks under a schedule: `true` runs one step of
the first task, `false` one step of the second; when the schedule is
exhausted the remainders run in sequence.  The empty schedule is fully
serialized execution. -/
def interleaveRun : List Bool → Levels → TaskState → TaskState → Levels
  | [], σ, t₁, t₂ => runTask (runTask σ t₁.steps t₁.acc) t₂.steps t₂.acc
  | b :: sched, σ, t₁, t₂ =>
    if b then
      let r := stepTask σ t₁
      interleaveRun sched r.1 r.2 t₂
    else
      let r := stepTask σ t₂
      interleaveRun sched r.1 t₁ r.2

/-! ### The Kit scenario of the specification

Bundle "Kit" with components X (quantity 2, level 10) and
Y (quantity 1, level 3); the Kit's own tracked level starts at 5. -/

/-- Product GID of the Kit bundle (line items carry `product_id = 1`). -/
def kitProductId : String := "gid://shopify/Product/1"

/-- Product GID of component X. -/
def xProductId : String := "gid://shopify/Product/10"

/-- Product GID of component Y. -/
def yProductId : String := "gid://shopify/Product/11"

/-- Inventory item id of component X. -/
def xItem : String := "item-x"

/-- Inventory item id of component Y. -/
def yItem : String := "item-y"

/-- Inventory item id of the Kit bundle itself. -/
def kitItem : String := "item-kit"

/-- The Kit's `custom.bundle_config` metafield value. -/
def kitConfig : BundleConfig :=
  { isBundle := true
    products := [ { productId := xProductId, quantity := 2, title := some "X" },
                  { productId := yProductId, quantity := 1, title := some "Y" } ] }

/-- External world for the Kit scenario: config and key lookups resolve
as above and every inventory call succeeds. -/
def kitEnv : Env :=
  { bundleConfigOf := fun pid => if pid = kitProductId then some kitConfig else none
    inventoryItemIdOf := fun pid =>
      if pid = kitProductId then some kitItem
      else if pid = xProductId then some xItem
      else if pid = yProductId then some yItem
      else none
    adjustOk := fun _ => true
    readOk := fun _ => true
    setOk := fun _ => true }

/-- Initial store: X at 10, Y at 3, Kit at 5. -/
def kitLevels : Levels := fun iid =>
  if iid = xItem then 10 else if iid = yItem then 3 else if iid = kitItem then 5 else 0

/-- One order line selling 1 Kit. -/
def kitLine : ShopifyLineItem := { id := 100, product_id := 1, title := "Kit", quantity := 1 }

/-- The order (event `E1`) containing that single line item. -/
def kitOrder : ShopifyOrder := { id := 900, name := "#1001", line_items := [kitLine] }

/-- Kit scenario in which Y's delta adjustment fails (e.g. `userErrors`
or a caught transport error in `adjustInventory`) while everything
else succeeds. -/
def kitEnvAdjustFailY : Env :=
  { kitEnv with adjustOk := fun iid => !(iid = yItem : Bool) }

/-- Kit scenario in which Y's level read fails (`getInventoryLevel`
returns `null`: untracked item, missing level, or caught query error)
while everything else succeeds. -/
def kitEnvReadFailY : Env :=
  { kitEnv with readOk := fun iid => !(iid = yItem : Bool) }

/-- Kit scenario in which every level read fails. -/
def kitEnvReadFailAll : Env :=
  { kitEnv with readOk := fun _ => false }

/-- Key resolution of the Kit's components as a function, used to state
the recompute formula. -/
def kitKeyOf : BundleProduct → String :=
  fun c => if c.productId = xProductId then xItem else yItem

/-- A line item for a product with no bundle config metafield. -/
def plainLine : ShopifyLineItem := { id := 101, product_id := 2, title := "Plain", quantity := 1 }

/-- The shared-state operation sequence of one sale of 1 Kit under
`kitEnv`, in program order (adjust X by -2, adjust Y by -1, read X
dividing by 2, read Y dividing by 1, set Kit to the min). -/
def kitSaleSteps : List Step :=
  [ .adjustStep xItem (-1 * (2 * 1)), .adjustStep yItem (-1 * (1 * 1)),
    .readStep xItem 2, .readStep yItem 1, .setMinStep kitItem ]

end BundleManager

namespace BundleManager

/-! ### Lemmas about the sync and adjustment folds -/

/-- The `availablePerComponent` list collected by the sync loop is the
`componentAvail` of each component, skipped components omitted. -/
theorem syncFold_avail (env : Env) (σ : Levels) :
    ∀ (l : List BundleProduct) (acts : List Action) (avail : List Int),
      (l.foldl (syncComponent env σ) (acts, avail)).2 =
        avail ++ l.filterMap (componentAvail env σ) := by
  intro l
  induction l with
  | nil => intro acts avail; simp
  | cons c t ih =>
    intro acts avail
    rw [List.foldl_cons, List.filterMap_cons]
    cases hk : env.inventoryItemIdOf c.productId with
    | none =>
      simp only [syncComponent, hk]
      rw [ih]
      simp [componentAvail, hk]
    | some iid =>
      cases hr : ShopifyGraphQL.getInventoryLevel env σ iid with
      | none =>
        simp only [syncComponent, hk, hr]
        rw [ih]
        simp [componentAvail, hk, hr]
      | some lvl =>
        simp only [syncComponent, hk, hr]
        rw [ih]
        simp [componentAvail, hk, hr]

/-- The sync loop issues no absolute sets. -/
theorem syncFold_trace_no_set (env : Env) (σ : Levels) :
    ∀ (l : List BundleProduct) (acts : List Action) (avail : List Int),
      ((l.foldl (syncComponent env σ) (acts, avail)).1).filter Action.isLevelSet =
        acts.filter Action.isLevelSet := by
  intro l
  induction l with
  | nil => intro acts avail; rfl
  | cons c t ih =>
    intro acts avail
    rw [List.foldl_cons]
    cases hk : env.inventoryItemIdOf c.productId with
    | none =>
      simp only [syncComponent, hk]
      rw [ih]
      simp [Action.isLevelSet]
    | some iid =>
      cases hr : ShopifyGraphQL.getInventoryLevel env σ iid with
      | none =>
        simp only [syncComponent, hk, hr]
        rw [ih]
        simp [Action.isLevelSet]
      | some lvl =>
        simp only [syncComponent, hk, hr]
        rw [ih]
        simp [Action.isLevelSet]

/-- The sync loop issues no delta adjustments. -/
theorem syncFold_trace_no_adjust (env : Env) (σ : Levels) :
    ∀ (l : List BundleProduct) (acts : List Action) (avail : List Int),
      ((l.foldl (syncComponent env σ) (acts, avail)).1).filter Action.isAdjust =
        acts.filter Action.isAdjust := by
  intro l
  induction l with
  | nil => intro acts avail; rfl
  | cons c t ih =>
    intro acts avail
    rw [List.foldl_cons]
    cases hk : env.inventoryItemIdOf c.productId with
    | none =>
      simp only [syncComponent, hk]
      rw [ih]
      simp [Action.isAdjust]
    | some iid =>
      cases hr : ShopifyGraphQL.getInventoryLevel env σ iid with
      | none =>
        simp only [syncComponent, hk, hr]
        rw [ih]
        simp [Action.isAdjust]
      | some lvl =>
        simp only [syncComponent, hk, hr]
        rw [ih]
        simp [Action.isAdjust]

/-- The delta adjustments issued by the component loop are exactly
`adjustActions`, and in particular do not depend on the store. -/
theorem adjustFold_trace (env : Env) (orderQty : Int) :
    ∀ (l : List BundleProduct) (σ : Levels) (acts : List Action),
      ((l.foldl (adjustComponent env orderQty) (σ, acts)).2).filter Action.isAdjust =
        acts.filter Action.isAdjust ++ adjustActions env orderQty l := by
  intro l
  induction l with
  | nil => intro σ acts; simp [adjustActions]
  | cons bp t ih =>
    intro σ acts
    rw [List.foldl_cons]
    cases hk : env.inventoryItemIdOf bp.productId with
    | none =>
      simp only [adjustComponent, hk]
      rw [ih]
      simp [adjustActions, hk, Action.isAdjust]
    | some iid =>
      cases ha : env.adjustOk iid with
      | false =>
        simp only [adjustComponent, hk, ha, Bool.false_eq_true, if_false]
        rw [ih]
        simp [adjustActions, hk, ha, Action.isAdjust]
      | true =>
        simp only [adjustComponent, hk, ha, if_true]
        rw [ih]
        simp [adjustActions, hk, ha, Action.isAdjust]

/-- `List.foldl min` over `a :: l` lands in `a :: l`. -/
theorem foldl_min_mem (a : Int) (l : List Int) : l.foldl min a ∈ a :: l := by
  induction l generalizing a with
  | nil => simp
  | cons b t ih =>
    rw [List.foldl_cons]
    rcases List.mem_cons.mp (ih (min a b)) with h1 | h1
    · rcases min_choice a b with hab | hab
      · rw [h1, hab]; exact List.mem_cons_self _ _
      · rw [h1, hab]; exact List.mem_cons_of_mem _ (List.mem_cons_self _ _)
    · exact List.mem_cons_of_mem _ (List.mem_cons_of_mem _ h1)

/-- `List.foldl min` over `a :: l` is a lower bound of `a :: l`. -/
theorem foldl_min_le (a : Int) (l : List Int) : ∀ x ∈ a :: l, l.foldl min a ≤ x := by
  induction l generalizing a with
  | nil =>
    intro x hx
    rw [List.mem_singleton] at hx
    simp [hx]
  | cons b t ih =>
    intro x hx
    rw [List.foldl_cons]
    rcases List.mem_cons.mp hx with h1 | h1
    · have hle : t.foldl min (min a b) ≤ min a b := ih (min a b) (min a b) (List.mem_cons_self _ _)
      rw [h1]
      exact hle.trans (min_le_left a b)
    · rcases List.mem_cons.mp h1 with h2 | h2
      · have hle : t.foldl min (min a b) ≤ min a b := ih (min a b) (min a b) (List.mem_cons_self _ _)
        rw [h2]
        exact hle.trans (min_le_right a b)
      · exact ih (min a b) x (List.mem_cons_of_mem _ h2)

/-- When the collected availability list is nonempty, the sync issues
exactly one absolute set: of the bundle's item, to the minimum of that
list, with the environment's set outcome. -/
theorem sync_set_trace (env : Env) (σ : Levels) (bundleProductId : String)
    (cfg : BundleConfig) (bid : String) (a : Int) (rest : List Int)
    (hbid : env.inventoryItemIdOf bundleProductId = some bid)
    (hA : cfg.products.filterMap (componentAvail env σ) = a :: rest) :
    (syncBundleInventory env σ bundleProductId cfg).2.filter Action.isLevelSet =
      [Action.levelSet bid (rest.foldl min a) (env.setOk bid)] := by
  have hcollected := syncFold_avail env σ cfg.products
    [Action.keyLookup bundleProductId (some bid)] []
  rw [List.nil_append, hA] at hcollected
  have htrace := syncFold_trace_no_set env σ cfg.products
    [Action.keyLookup bundleProductId (some bid)] []
  simp only [syncBundleInventory, hbid]
  rw [hcollected]
  cases hset : env.setOk bid with
  | true =>
    simp only [if_true]
    rw [List.filter_append, htrace]
    simp [Action.isLevelSet]
  | false =>
    simp only [Bool.false_eq_true, if_false]
    rw [List.filter_append, htrace]
    simp [Action.isLevelSet]

/-- When the collected availability list is empty the sync leaves the
store untouched and its trace is just the loop's lookups and reads. -/
theorem sync_noop_of_empty_avail (env : Env) (σ : Levels) (bundleProductId : String)
    (cfg : BundleConfig) (bid : String)
    (hbid : env.inventoryItemIdOf bundleProductId = some bid)
    (hA : cfg.products.filterMap (componentAvail env σ) = []) :
    syncBundleInventory env σ bundleProductId cfg =
      (σ, (cfg.products.foldl (syncComponent env σ)
        ([Action.keyLookup bundleProductId (some bid)], [])).1) := by
  have hcollected := syncFold_avail env σ cfg.products
    [Action.keyLookup bundleProductId (some bid)] []
  rw [List.nil_append, hA] at hcollected
  simp only [syncBundleInventory, hbid]
  rw [hcollected]

/-- Under total key resolution `κ`, the collected availabilities are the
floors `level / quantity` of exactly the components whose level read
succeeds. -/
theorem filterMap_componentAvail_of_keys (env : Env) (σ : Levels)
    (κ : BundleProduct → String) :
    ∀ (l : List BundleProduct),
      (∀ c ∈ l, env.inventoryItemIdOf c.productId = some (κ c)) →
      l.filterMap (componentAvail env σ) =
        (l.filter fun c => env.readOk (κ c)).map
          fun c => Int.fdiv (σ (κ c)) c.quantity := by
  intro l
  induction l with
  | nil => intro _; simp
  | cons c t ih =>
    intro h
    have hc := h c (List.mem_cons_self _ _)
    have ht : ∀ d ∈ t, env.inventoryItemIdOf d.productId = some (κ d) :=
      fun d hd => h d (List.mem_cons_of_mem _ hd)
    rw [List.filterMap_cons, List.filter_cons]
    cases hro : env.readOk (κ c) with
    | true =>
      simp only [if_true, List.map_cons]
      simp [componentAvail, hc, ShopifyGraphQL.getInventoryLevel, hro, ih ht]
    | false =>
      simp only [Bool.false_eq_true, if_false]
      simp [componentAvail, hc, ShopifyGraphQL.getInventoryLevel, hro, ih ht]

/-- `syncBundleInventory` never issues delta adjustments. -/
theorem sync_trace_no_adjust (env : Env) (σ : Levels) (pid : String) (cfg : BundleConfig) :
    (syncBundleInventory env σ pid cfg).2.filter Action.isAdjust = [] := by
  cases hb : env.inventoryItemIdOf pid with
  | none => simp [syncBundleInventory, hb, Action.isAdjust]
  | some bid =>
    rcases hA : cfg.products.filterMap (componentAvail env σ) with _ | ⟨a, rest⟩
    · rw [sync_noop_of_empty_avail env σ pid cfg bid hb hA]
      rw [syncFold_trace_no_adjust]
      rfl
    · have hcollected := syncFold_avail env σ cfg.products [Action.keyLookup pid (some bid)] []
      rw [List.nil_append, hA] at hcollected
      simp only [syncBundleInventory, hb]
      rw [hcollected]
      cases hset : env.setOk bid with
      | true =>
        simp only [if_true]
        rw [List.filter_append, syncFold_trace_no_adjust]
        simp [Action.isAdjust]
      | false =>
        simp only [Bool.false_eq_true, if_false]
        rw [List.filter_append, syncFold_trace_no_adjust]
        simp [Action.isAdjust]

/-- The delta adjustments issued by a whole `processLineItem` run are a
function of the environment and the line item alone (never of the
inventory store): the config decides whether the component loop runs,
and the loop's adjustments are `adjustActions`. -/
theorem processLineItem_adjust_trace (env : Env) (σ : Levels) (li : ShopifyLineItem) :
    (processLineItem env σ li).2.filter Action.isAdjust =
      (match env.bundleConfigOf (lineItemProductGid li) with
       | none => []
       | some cfg =>
         if !cfg.isBundle || cfg.products.isEmpty then []
         else adjustActions env li.quantity cfg.products) := by
  cases hc : env.bundleConfigOf (lineItemProductGid li) with
  | none => simp [processLineItem, hc]
  | some cfg =>
    cases hb : (!cfg.isBundle || cfg.products.isEmpty) with
    | true => simp [processLineItem, hc, hb]
    | false =>
      simp only [processLineItem, hc, hb, Bool.false_eq_true, if_false]
      rw [List.filter_append, adjustFold_trace, sync_trace_no_adjust]
      simp

/-- The step sequence `kitSaleSteps` is exactly the store effect of
`processLineItem` for one Kit sale under `kitEnv`: the interleaving
model agrees with the pipeline pointwise on every item, from every
store. -/
theorem kitSaleSteps_agree (σ : Levels) (iid : String) :
    runTask σ kitSaleSteps [] iid = (processLineItem kitEnv σ kitLine).1 iid := rfl

end BundleManager

namespace BundleManager

/-! ### Claim theorems -/

/-- C1 (counterexample): processing order `E1` (one sale of 1 Kit) a
second time after a first complete processing is not a no-op.  The
first run leaves X at 8 and Y at 2; the redelivered run issues the
same two applied delta adjustments again and leaves X at 6 and Y at 1,
i.e. an additional decrement per component, refuting the claimed
idempotence on the code as written (no idempotency record exists). -/
theorem redelivered_event_decrements_again :
    (processOrder kitEnv kitLevels kitOrder).1 xItem = 8 ∧
    (processOrder kitEnv kitLevels kitOrder).1 yItem = 2 ∧
    (processOrder kitEnv (processOrder kitEnv kitLevels kitOrder).1 kitOrder).1 xItem = 6 ∧
    (processOrder kitEnv (processOrder kitEnv kitLevels kitOrder).1 kitOrder).1 yItem = 1 ∧
    (processOrder kitEnv (processOrder kitEnv kitLevels kitOrder).1 kitOrder).2.filter
        Action.isAdjust =
      [Action.adjust xItem (-2) true, Action.adjust yItem (-1) true] := by
  decide

/-- C1 (amended): the pipeline keeps no record of processed
`(eventId, lineItemId)` pairs, so a redelivered event re-issues exactly
the delta adjustments of the first delivery: the adjustment calls of
`processLineItem` do not depend on the inventory store left by prior
processing, only on the environment and the line item. -/
theorem adjust_calls_independent_of_prior_state (env : Env) (li : ShopifyLineItem)
    (σ σ₂ : Levels) :
    (processLineItem env σ li).2.filter Action.isAdjust =
      (processLineItem env σ₂ li).2.filter Action.isAdjust := by
  rw [processLineItem_adjust_trace, processLineItem_adjust_trace]

/-- C2: when the bundle's own key resolves and every component's key
resolves, the sync issues exactly one absolute set of the bundle's
inventory, whose value is the minimum over the level-readable
(tracked) components of `floor(level / quantity)`; components whose
level read yields `null` (not inventory-tracked) are excluded from the
minimum.  The hypothesis `1 ≤ quantity` keeps the model's integer
floor division aligned with the JS `Math.floor(level / quantity)`
(which needs a positive divisor to be finite). -/
theorem sync_sets_min_of_component_floors (env : Env) (σ : Levels)
    (bundleProductId : String) (cfg : BundleConfig) (bid : String)
    (κ : BundleProduct → String)
    (hbid : env.inventoryItemIdOf bundleProductId = some bid)
    (hkey : ∀ c ∈ cfg.products, env.inventoryItemIdOf c.productId = some (κ c))
    (hq : ∀ c ∈ cfg.products, 1 ≤ c.quantity)
    (htracked : (cfg.products.filter fun c => env.readOk (κ c)) ≠ []) :
    ∃ v ok,
      (syncBundleInventory env σ bundleProductId cfg).2.filter Action.isLevelSet =
        [Action.levelSet bid v ok] ∧
      (∀ c ∈ cfg.products, env.readOk (κ c) = true → v ≤ Int.fdiv (σ (κ c)) c.quantity) ∧
      (∃ c ∈ cfg.products, env.readOk (κ c) = true ∧ v = Int.fdiv (σ (κ c)) c.quantity) := by
  have hmap := filterMap_componentAvail_of_keys env σ κ cfg.products hkey
  rcases hF : (cfg.products.filter fun c => env.readOk (κ c)) with _ | ⟨c0, cs⟩
  · exact absurd hF htracked
  · rw [hF, List.map_cons] at hmap
    refine ⟨(cs.map fun c => Int.fdiv (σ (κ c)) c.quantity).foldl min
        (Int.fdiv (σ (κ c0)) c0.quantity), env.setOk bid,
      sync_set_trace env σ bundleProductId cfg bid _ _ hbid hmap, ?_, ?_⟩
    · intro c hc hro
      apply foldl_min_le
      have hmem : Int.fdiv (σ (κ c)) c.quantity ∈
          (c0 :: cs).map fun c => Int.fdiv (σ (κ c)) c.quantity := by
        apply List.mem_map_of_mem
        rw [← hF]
        exact List.mem_filter.mpr ⟨hc, by simp [hro]⟩
      rw [List.map_cons] at hmem
      exact hmem
    · have hmem := foldl_min_mem (Int.fdiv (σ (κ c0)) c0.quantity)
        (cs.map fun c => Int.fdiv (σ (κ c)) c.quantity)
      have hmem2 : (cs.map fun c => Int.fdiv (σ (κ c)) c.quantity).foldl min
          (Int.fdiv (σ (κ c0)) c0.quantity) ∈
          (c0 :: cs).map fun c => Int.fdiv (σ (κ c)) c.quantity := by
        rw [List.map_cons]
        exact hmem
      rcases List.mem_map.mp hmem2 with ⟨c, hcmem, hceq⟩
      rw [← hF] at hcmem
      have hcc := List.mem_filter.mp hcmem
      exact ⟨c, hcc.1, by simpa using hcc.2, hceq.symm⟩

/-- C2 (witness): Kit under `kitEnvReadFailY` — X is level-readable at
10 with quantity 2, Y's read fails — so the sync sets the Kit's item
to the minimum over the readable components. -/
theorem sync_sets_min_of_component_floors_witness :
    (kitEnvReadFailY.inventoryItemIdOf kitProductId = some kitItem) ∧
    (∀ c ∈ kitConfig.products,
      kitEnvReadFailY.inventoryItemIdOf c.productId = some (kitKeyOf c)) ∧
    (∀ c ∈ kitConfig.products, 1 ≤ c.quantity) ∧
    ((kitConfig.products.filter fun c => kitEnvReadFailY.readOk (kitKeyOf c)) ≠ []) ∧
    (∃ v ok,
      (syncBundleInventory kitEnvReadFailY kitLevels kitProductId kitConfig).2.filter
          Action.isLevelSet = [Action.levelSet kitItem v ok] ∧
      (∀ c ∈ kitConfig.products, kitEnvReadFailY.readOk (kitKeyOf c) = true →
        v ≤ Int.fdiv (kitLevels (kitKeyOf c)) c.quantity) ∧
      (∃ c ∈ kitConfig.products, kitEnvReadFailY.readOk (kitKeyOf c) = true ∧
        v = Int.fdiv (kitLevels (kitKeyOf c)) c.quantity)) :=
  ⟨by decide, by decide, by decide, by decide,
    sync_sets_min_of_component_floors kitEnvReadFailY kitLevels kitProductId kitConfig
      kitItem kitKeyOf (by decide) (by decide) (by decide) (by decide)⟩

/-- C3 (counterexample): Y's level read fails under `kitEnvReadFailY`,
yet `syncBundleInventory` still issues an absolute set of the Kit's
level (to `floor(10 / 2) = 5`, computed from X alone), refuting the
claim that any failed component read suppresses the set. -/
theorem failed_read_does_not_suppress_set :
    kitEnvReadFailY.inventoryItemIdOf yProductId = some yItem ∧
    kitEnvReadFailY.readOk yItem = false ∧
    (syncBundleInventory kitEnvReadFailY kitLevels kitProductId kitConfig).2.filter
        Action.isLevelSet =
      [Action.levelSet kitItem 5 true] := by
  decide

/-- C3 (amended): a failed component key lookup or level read does not
abort the recomputation — the component is skipped, and as long as the
bundle's key resolves and at least one component's level was read, one
absolute set is still issued, its value the minimum over the partial
snapshot of collected availabilities. -/
theorem partial_snapshot_still_issues_set (env : Env) (σ : Levels)
    (bundleProductId : String) (cfg : BundleConfig) (bid : String)
    (hbid : env.inventoryItemIdOf bundleProductId = some bid)
    (hsome : ∃ c ∈ cfg.products, componentAvail env σ c ≠ none)
    (hfail : ∃ c ∈ cfg.products, componentAvail env σ c = none) :
    ∃ v ok,
      (syncBundleInventory env σ bundleProductId cfg).2.filter Action.isLevelSet =
        [Action.levelSet bid v ok] ∧
      v ∈ cfg.products.filterMap (componentAvail env σ) ∧
      ∀ x ∈ cfg.products.filterMap (componentAvail env σ), v ≤ x := by
  rcases hA : cfg.products.filterMap (componentAvail env σ) with _ | ⟨a, rest⟩
  · exfalso
    rcases hsome with ⟨c, hc, hne⟩
    cases h : componentAvail env σ c with
    | none => exact hne h
    | some w =>
      have hmem : w ∈ cfg.products.filterMap (componentAvail env σ) :=
        List.mem_filterMap.mpr ⟨c, hc, h⟩
      rw [hA] at hmem
      simp at hmem
  · refine ⟨rest.foldl min a, env.setOk bid,
      sync_set_trace env σ bundleProductId cfg bid a rest hbid hA, ?_, ?_⟩
    · exact foldl_min_mem a rest
    · exact foldl_min_le a rest

/-- C3 (witness): under `kitEnvReadFailY`, X's availability is
collected, Y's read fails, and the set is still issued. -/
theorem partial_snapshot_still_issues_set_witness :
    (kitEnvReadFailY.inventoryItemIdOf kitProductId = some kitItem) ∧
    (∃ c ∈ kitConfig.products, componentAvail kitEnvReadFailY kitLevels c ≠ none) ∧
    (∃ c ∈ kitConfig.products, componentAvail kitEnvReadFailY kitLevels c = none) ∧
    (∃ v ok,
      (syncBundleInventory kitEnvReadFailY kitLevels kitProductId kitConfig).2.filter
          Action.isLevelSet = [Action.levelSet kitItem v ok] ∧
      v ∈ kitConfig.products.filterMap (componentAvail kitEnvReadFailY kitLevels) ∧
      ∀ x ∈ kitConfig.products.filterMap (componentAvail kitEnvReadFailY kitLevels),
        v ≤ x) :=
  ⟨by decide, by decide, by decide,
    partial_snapshot_still_issues_set kitEnvReadFailY kitLevels kitProductId kitConfig
      kitItem (by decide) (by decide) (by decide)⟩

end BundleManager

namespace BundleManager

/-- C4 (counterexample): with Y's adjustment failing and X's
succeeding, X's delta is indeed applied and containment holds — but
the bundle phase is not deferred: `processLineItem` still runs the
sync, which issues an absolute set of the Kit's level (to
`min(floor(8/2), floor(3/1)) = 3`), refuting the claim that the
bundle's availability is not set after a component failure. -/
theorem component_failure_bundle_still_set :
    kitEnvAdjustFailY.adjustOk xItem = true ∧
    kitEnvAdjustFailY.adjustOk yItem = false ∧
    (processLineItem kitEnvAdjustFailY kitLevels kitLine).1 xItem = 8 ∧
    (processLineItem kitEnvAdjustFailY kitLevels kitLine).1 yItem = 3 ∧
    (processLineItem kitEnvAdjustFailY kitLevels kitLine).2.filter Action.isAdjust =
      [Action.adjust xItem (-2) true, Action.adjust yItem (-1) false] ∧
    (processLineItem kitEnvAdjustFailY kitLevels kitLine).2.filter Action.isLevelSet =
      [Action.levelSet kitItem 3 true] := by
  decide

/-- C4 (amended): a component's failed adjustment is contained — the
sibling's delta is still applied and the failure aborts nothing — but
the line item does not end deferred: from every starting store, the
sync still runs and issues one absolute set of the bundle's level,
computed from the re-read current levels (Y's level still undecre-
mented). -/
theorem component_failure_contained_sync_still_runs (σ : Levels) :
    (processLineItem kitEnvAdjustFailY σ kitLine).1 xItem = σ xItem + -1 * (2 * 1) ∧
    (processLineItem kitEnvAdjustFailY σ kitLine).1 yItem = σ yItem ∧
    (processLineItem kitEnvAdjustFailY σ kitLine).2.filter Action.isAdjust =
      [Action.adjust xItem (-2) true, Action.adjust yItem (-1) false] ∧
    (processLineItem kitEnvAdjustFailY σ kitLine).2.filter Action.isLevelSet =
      [Action.levelSet kitItem
        (min (Int.fdiv (σ xItem + -2) 2) (Int.fdiv (σ yItem) 1)) true] :=
  ⟨rfl, rfl, rfl, rfl⟩

/-- C5: two concurrent sales of 1 Kit.  Serialized execution (empty
schedule) ends with X = 6, Y = 1 and the Kit set to
`min(floor(6/2), floor(1/1)) = 1` — the claim's expected outcome.  But
under the interleaving in which event 1 performs its adjustments and
level reads, event 2 then runs to completion (setting Kit to 1), and
event 1's absolute set lands last, the final store has X = 6 and
Y = 1 yet Kit = 2: event 1's set was computed from its stale snapshot
(X = 8, Y = 2), a lost update the unserialized code permits. -/
theorem concurrent_kit_sales_interleaving_lost_update :
    ((interleaveRun [] kitLevels ⟨kitSaleSteps, []⟩ ⟨kitSaleSteps, []⟩) xItem = 6 ∧
     (interleaveRun [] kitLevels ⟨kitSaleSteps, []⟩ ⟨kitSaleSteps, []⟩) yItem = 1 ∧
     (interleaveRun [] kitLevels ⟨kitSaleSteps, []⟩ ⟨kitSaleSteps, []⟩) kitItem = 1) ∧
    ((interleaveRun [true, true, true, true, false, false, false, false, false, true]
        kitLevels ⟨kitSaleSteps, []⟩ ⟨kitSaleSteps, []⟩) xItem = 6 ∧
     (interleaveRun [true, true, true, true, false, false, false, false, false, true]
        kitLevels ⟨kitSaleSteps, []⟩ ⟨kitSaleSteps, []⟩) yItem = 1 ∧
     (interleaveRun [true, true, true, true, false, false, false, false, false, true]
        kitLevels ⟨kitSaleSteps, []⟩ ⟨kitSaleSteps, []⟩) kitItem = 2) := by
  decide

/-- C6 (counterexample): a transient fetch failure and an absent
bundle metafield produce the same `getBundleConfig` result (`null`),
so a caller cannot distinguish "could not determine" from "no bundle
association" — refuting the claimed distinct `ConfigFetchError`. -/
theorem config_fetch_error_conflated_with_no_bundle :
    ShopifyGraphQL.getBundleConfig MetafieldFetch.fetchError =
      ShopifyGraphQL.getBundleConfig MetafieldFetch.noMetafield ∧
    ShopifyGraphQL.getBundleConfig MetafieldFetch.fetchError = none := ⟨rfl, rfl⟩

/-- C6 (amended): `getBundleConfig` returns `null` exactly for a fetch
error, an absent metafield, and an unparsable metafield value alike;
no other outcome is distinguishable from "not a bundle". -/
theorem getBundleConfig_none_iff (f : MetafieldFetch) :
    ShopifyGraphQL.getBundleConfig f = none ↔
      f = MetafieldFetch.fetchError ∨ f = MetafieldFetch.noMetafield ∨
      f = MetafieldFetch.metafieldValue none := by
  cases f with
  | fetchError => simp [ShopifyGraphQL.getBundleConfig]
  | noMetafield => simp [ShopifyGraphQL.getBundleConfig]
  | metafieldValue p => cases p <;> simp [ShopifyGraphQL.getBundleConfig]

/-- C7: Scenario A end to end.  One sale of 1 Kit issues exactly one
delta of -2 to X and one delta of -1 to Y (the full call trace is
listed), the levels become 8 and 2, and the sync recomputes
`min(floor(8/2), floor(2/1)) = 2` and sets the Kit's own level to 2. -/
theorem scenario_a_one_kit_sale :
    (processLineItem kitEnv kitLevels kitLine).2 =
      [Action.keyLookup xProductId (some xItem),
       Action.adjust xItem (-2) true,
       Action.keyLookup yProductId (some yItem),
       Action.adjust yItem (-1) true,
       Action.keyLookup kitProductId (some kitItem),
       Action.keyLookup xProductId (some xItem),
       Action.levelRead xItem (some 8),
       Action.keyLookup yProductId (some yItem),
       Action.levelRead yItem (some 2),
       Action.levelSet kitItem 2 true] ∧
    (processLineItem kitEnv kitLevels kitLine).1 xItem = 8 ∧
    (processLineItem kitEnv kitLevels kitLine).1 yItem = 2 ∧
    (processLineItem kitEnv kitLevels kitLine).1 kitItem = 2 := by
  decide

/-- C8: a line item whose product has no bundle config, or whose
config has `isBundle = false` or an empty component list, is a
complete no-op: `processLineItem` returns the store unchanged and an
empty call trace (no key lookup, no adjustment, no read, no set). -/
theorem non_bundle_line_item_noop (env : Env) (σ : Levels) (li : ShopifyLineItem)
    (h : env.bundleConfigOf (lineItemProductGid li) = none ∨
         ∃ cfg, env.bundleConfigOf (lineItemProductGid li) = some cfg ∧
           (cfg.isBundle = false ∨ cfg.products = [])) :
    processLineItem env σ li = (σ, []) := by
  rcases h with h | ⟨cfg, hcfg, hcase⟩
  · simp [processLineItem, h]
  · have hb : (!cfg.isBundle || cfg.products.isEmpty) = true := by
      rcases hcase with h1 | h1 <;> simp [h1]
    simp [processLineItem, hcfg, hb]

/-- C8 (witness): `plainLine`'s product resolves to no bundle config
under `kitEnv`, and processing it changes nothing and issues no
calls. -/
theorem non_bundle_line_item_noop_witness :
    (kitEnv.bundleConfigOf (lineItemProductGid plainLine) = none) ∧
    processLineItem kitEnv kitLevels plainLine = (kitLevels, []) :=
  ⟨by decide, non_bundle_line_item_noop kitEnv kitLevels plainLine (Or.inl (by decide))⟩

/-- C9: `getInventoryItemId` consults only the product's first
variant: the result is unchanged by whatever follows the head of the
variant list; it returns the first variant's inventory item id when
present (and non-empty, per the JS `|| null`), and returns `null` —
never throwing, the function being total — when the query fails, the
product is missing, it has no variants, or the first variant has no
inventory item. -/
theorem getInventoryItemId_first_variant_only (v : VariantNode)
    (rest rest₂ : List VariantNode) (iid : String) (hiid : iid ≠ "") :
    ShopifyGraphQL.getInventoryItemId (.productFound ⟨v :: rest⟩) =
      ShopifyGraphQL.getInventoryItemId (.productFound ⟨v :: rest₂⟩) ∧
    ShopifyGraphQL.getInventoryItemId
        (.productFound ⟨{ inventoryItemId := some iid } :: rest⟩) = some iid ∧
    ShopifyGraphQL.getInventoryItemId .queryError = none ∧
    ShopifyGraphQL.getInventoryItemId .productMissing = none ∧
    ShopifyGraphQL.getInventoryItemId (.productFound ⟨[]⟩) = none ∧
    ShopifyGraphQL.getInventoryItemId
        (.productFound ⟨{ inventoryItemId := none } :: rest⟩) = none := by
  refine ⟨rfl, ?_, rfl, rfl, rfl, rfl⟩
  simp [ShopifyGraphQL.getInventoryItemId, hiid]

/-- C9 (witness): instantiated at a concrete two-variant product whose
second variant is never consulted. -/
theorem getInventoryItemId_first_variant_only_witness :
    ("gid://shopify/InventoryItem/77" ≠ "") ∧
    (ShopifyGraphQL.getInventoryItemId
        (.productFound ⟨⟨some "gid://shopify/InventoryItem/77"⟩ :: []⟩) =
      ShopifyGraphQL.getInventoryItemId
        (.productFound ⟨⟨some "gid://shopify/InventoryItem/77"⟩ :: [⟨none⟩]⟩) ∧
     ShopifyGraphQL.getInventoryItemId
        (.productFound ⟨{ inventoryItemId := some "gid://shopify/InventoryItem/77" } :: []⟩) =
       some "gid://shopify/InventoryItem/77" ∧
     ShopifyGraphQL.getInventoryItemId .queryError = none ∧
     ShopifyGraphQL.getInventoryItemId .productMissing = none ∧
     ShopifyGraphQL.getInventoryItemId (.productFound ⟨[]⟩) = none ∧
     ShopifyGraphQL.getInventoryItemId
        (.productFound ⟨{ inventoryItemId := none } :: []⟩) = none) :=
  ⟨by decide,
    getInventoryItemId_first_variant_only ⟨some "gid://shopify/InventoryItem/77"⟩ [] [⟨none⟩]
      "gid://shopify/InventoryItem/77" (by decide)⟩

/-- C10: when the bundle's own inventory item cannot be resolved, or
every component fails key resolution or its level read (so the
collected availability list is empty), `syncBundleInventory` leaves
the store unchanged and issues no absolute set. -/
theorem empty_snapshot_skips_set (env : Env) (σ : Levels) (bundleProductId : String)
    (cfg : BundleConfig)
    (h : env.inventoryItemIdOf bundleProductId = none ∨
         ∀ c ∈ cfg.products, componentAvail env σ c = none) :
    (syncBundleInventory env σ bundleProductId cfg).1 = σ ∧
    (syncBundleInventory env σ bundleProductId cfg).2.filter Action.isLevelSet = [] := by
  rcases h with h | h
  · simp [syncBundleInventory, h, Action.isLevelSet]
  · cases hb : env.inventoryItemIdOf bundleProductId with
    | none => simp [syncBundleInventory, hb, Action.isLevelSet]
    | some bid =>
      have hA : cfg.products.filterMap (componentAvail env σ) = [] :=
        List.filterMap_eq_nil_iff.mpr h
      rw [sync_noop_of_empty_avail env σ bundleProductId cfg bid hb hA]
      exact ⟨rfl, by rw [syncFold_trace_no_set]; rfl⟩

/-- C10 (witness): with every level read failing, the Kit sync leaves
the store untouched and sets nothing. -/
theorem empty_snapshot_skips_set_witness :
    (∀ c ∈ kitConfig.products, componentAvail kitEnvReadFailAll kitLevels c = none) ∧
    (syncBundleInventory kitEnvReadFailAll kitLevels kitProductId kitConfig).1 =
      kitLevels ∧
    (syncBundleInventory kitEnvReadFailAll kitLevels kitProductId kitConfig).2.filter
      Action.isLevelSet = [] := by
  refine ⟨by decide, ?_, ?_⟩
  · exact (empty_snapshot_skips_set kitEnvReadFailAll kitLevels kitProductId kitConfig
      (Or.inr (by decide))).1
  · exact (empty_snapshot_skips_set kitEnvReadFailAll kitLevels kitProductId kitConfig
      (Or.inr (by decide))).2

end BundleManager
